import Mathlib

attribute [local semireducible] Rat.add Rat.mul Rat.inv Rat.sub Rat.ofScientific

/-!
Verification of the kinematics simulation engine of this repository.

The engine lives in the main simulation component: the state calculator
`calculateStateAtTime` (constant-acceleration mode and piecewise-velocity
mode), the fixed-step timeline sampler with its inline crossing detector,
the playback clock driven by `animate` / the reset handler / the time
slider, and the graph-builder point picking `handleSvgClick`.

The source's IEEE-double arithmetic is embedded as exact rational
arithmetic over `ℚ`; every numeric constant of the source (`TIME_STEP`,
`MAX_TIME`, the SVG geometry) is an exact rational here.
-/

/-- A control point of a velocity-time graph: source object shape `{ t, v }`. -/
structure GraphPoint where
  t : ℚ
  v : ℚ
deriving DecidableEq

/-- Result of the state calculator: source object shape `{ x, v }`. -/
structure BodyState where
  x : ℚ
  v : ℚ
deriving DecidableEq

/-- `BodyParams` from the types module.  The presentation-only fields
`id`, `name`, `color` are never read by the engine and are omitted; the
optional `graphPoints` field is modelled as an `Option`. -/
structure BodyParams where
  x0 : ℚ
  v0 : ℚ
  a : ℚ
  isCustomGraph : Bool
  graphPoints : Option (List GraphPoint)
deriving DecidableEq

/-- `TIME_STEP` from the constants module: 0.1 seconds per calculation step. -/
def TIME_STEP : ℚ := 1/10

/-- `MAX_TIME` from the constants module: 20 seconds simulated horizon. -/
def MAX_TIME : ℚ := 20

/-- The ordering used by every `sort((a,b) => a.t - b.t)` call in the source. -/
def ptLE (p q : GraphPoint) : Prop := p.t ≤ q.t

instance : DecidableRel ptLE := fun p q => inferInstanceAs (Decidable (p.t ≤ q.t))

instance : IsTotal GraphPoint ptLE := ⟨fun p q => le_total p.t q.t⟩

instance : IsTrans GraphPoint ptLE := ⟨fun _ _ _ h h2 => le_trans h h2⟩

/-- `[...pts].sort((a,b) => a.t - b.t)`: a stable sort ascending by time. -/
def sortByT (l : List GraphPoint) : List GraphPoint := List.insertionSort ptLE l

/-- The integration loop of `calculateStateAtTime` over consecutive control
point pairs `(p1, p2)`, carrying the accumulated position `x` and the running
velocity `v`.  Mirrors the `for` loop with its two `break`s (`p1.t >= t` and
`p2.t >= t`) and the `continue` on `dt <= 0`. -/
def piecewiseLoop (t x v : ℚ) : List GraphPoint → BodyState
  | p1 :: p2 :: rest =>
    if p1.t ≥ t then ⟨x, v⟩
    else
      let segmentEnd := min p2.t t
      let dt := segmentEnd - p1.t
      if dt ≤ 0 then piecewiseLoop t x v (p2 :: rest)
      else
        let slope := (p2.v - p1.v) / (p2.t - p1.t)
        let vStart := p1.v
        let vEnd := vStart + slope * dt
        let dx := ((vStart + vEnd) / 2) * dt
        if p2.t ≥ t then ⟨x + dx, vEnd⟩
        else piecewiseLoop t (x + dx) vEnd (p2 :: rest)
  | _ => ⟨x, v⟩

/-- The standard constant-acceleration branch of `calculateStateAtTime`. -/
def constAccelState (body : BodyParams) (t : ℚ) : BodyState :=
  ⟨body.x0 + body.v0 * t + 1/2 * body.a * t * t, body.v0 + body.a * t⟩

/-- `calculateStateAtTime(body, t)`: piecewise v(t) integration when
`body.isCustomGraph && body.graphPoints && body.graphPoints.length >= 2`,
constant-acceleration formulas otherwise. -/
def calculateStateAtTime (body : BodyParams) (t : ℚ) : BodyState :=
  match body.isCustomGraph, body.graphPoints with
  | true, some pts =>
    if pts.length ≥ 2 then
      let sortedPoints := sortByT pts
      if t ≤ 0 then ⟨body.x0, (sortedPoints.headD ⟨0, 0⟩).v⟩
      else piecewiseLoop t body.x0 0 sortedPoints
    else constAccelState body t
  | _, _ => constAccelState body t

/-- Grid of the sampling loop `for (let t = 0; t <= MAX_TIME; t += TIME_STEP)`:
the points `n · TIME_STEP` with `n · TIME_STEP ≤ MAX_TIME`, i.e. `n ≤ 200`. -/
def sampleTimes : List ℚ := (List.range 201).map (fun n => (n : ℚ) * TIME_STEP)

/-- The sign-flip test of the crossing detector at sample time `t`, comparing
against the previous sample at `t - TIME_STEP` exactly as the source does:
`(prevXa < prevXb && xa >= xb) || (prevXa > prevXb && xa <= xb)`. -/
def crossingCond (bodyA bodyB : BodyParams) (t : ℚ) : Prop :=
  let prevXa := (calculateStateAtTime bodyA (t - TIME_STEP)).x
  let prevXb := (calculateStateAtTime bodyB (t - TIME_STEP)).x
  let xa := (calculateStateAtTime bodyA t).x
  let xb := (calculateStateAtTime bodyB t).x
  (prevXa < prevXb ∧ xa ≥ xb) ∨ (prevXa > prevXb ∧ xa ≤ xb)

instance (bodyA bodyB : BodyParams) (t : ℚ) : Decidable (crossingCond bodyA bodyB t) := by
  unfold crossingCond
  exact instDecidableOr

/-- The crossing scan of the sampling effect: the first sample time `t > 0`
whose sign-flip test fires yields `meet = { t, x: xa }`; the `foundMeet` flag
of the source makes later flips irrelevant, so the scan is a first-match
search. -/
def crossingScan (bodyA bodyB : BodyParams) : List ℚ → Option (ℚ × ℚ)
  | [] => none
  | t :: ts =>
    if t > 0 ∧ crossingCond bodyA bodyB t then
      some (t, (calculateStateAtTime bodyA t).x)
    else crossingScan bodyA bodyB ts

/-- The crossing detector over the full sampled horizon. -/
def detectCrossing (bodyA bodyB : BodyParams) : Option (ℚ × ℚ) :=
  crossingScan bodyA bodyB sampleTimes

/-- State of the playback clock: the `isPlaying` flag and the
`currentTime` scrub cursor. -/
structure ClockState where
  isPlaying : Bool
  currentTime : ℚ
deriving DecidableEq

/-- The time slider's change handler: `setIsPlaying(false)` then
`setCurrentTime(parseFloat(e.target.value))`.  The range input element
carries `min="0" max={MAX_TIME}`, so the delivered value is the picked
time clamped to `[0, MAX_TIME]`. -/
def seekTo (_ : ClockState) (t : ℚ) : ClockState :=
  ⟨false, max 0 (min MAX_TIME t)⟩

/-- Full state of the playback animation loop.  `animate` is a closure: it
captures the `currentTime` of the render in which the `[isPlaying]` effect
armed `requestAnimationFrame`, and on every frame it recomputes
`nextTime = currentTime + 0.05` from that captured value and reschedules
itself — state updates from later renders never reach the scheduled chain.
`armed = some c` records a pending animation callback whose closure
captured cursor value `c`; `armed = none` means no callback is pending
(paused, cancelled, or completed). -/
structure AnimState where
  isPlaying : Bool
  currentTime : ℚ
  armed : Option ℚ
deriving DecidableEq

/-- Initial animation state: `useState(false)`, `useState(0)`, nothing
scheduled. -/
def initialAnim : AnimState := ⟨false, 0, none⟩

/-- The play/pause button `setIsPlaying(!isPlaying)` followed by the
`[isPlaying]` effect: flipping to Playing arms a chain whose `animate`
closure captures the cursor of that render; flipping to Paused cancels the
pending callback. -/
def togglePlayAnim (s : AnimState) : AnimState :=
  if s.isPlaying then ⟨false, s.currentTime, none⟩
  else ⟨true, s.currentTime, some s.currentTime⟩

/-- `handleReset` followed by the effect: stop playing (cancelling any
pending callback) and rewind the cursor to 0. -/
def resetAnim (_ : AnimState) : AnimState := ⟨false, 0, none⟩

/-- The slider seek followed by the effect: stop playing (cancelling any
pending callback) and set the cursor to the clamped picked time. -/
def seekAnim (_ : AnimState) (t : ℚ) : AnimState :=
  ⟨false, max 0 (min MAX_TIME t), none⟩

/-- One scheduler tick: run the pending `animate` callback, if any.  The
closure computes `nextTime` from its CAPTURED cursor value, not from the
currently rendered cursor.  On `nextTime >= MAX_TIME` it pauses and clamps
the cursor (the effect then cancels; nothing rescheduled); otherwise it
stores `nextTime` and reschedules itself — the same closure, with the same
captured value. -/
def tickAnim (s : AnimState) : AnimState :=
  match s.armed with
  | none => s
  | some c =>
    if c + 1/20 ≥ MAX_TIME then ⟨false, MAX_TIME, none⟩
    else ⟨s.isPlaying, c + 1/20, some c⟩

namespace GraphBuilder

/-- SVG canvas width in pixels. -/
def width : ℚ := 600

/-- SVG canvas height in pixels. -/
def height : ℚ := 300

/-- SVG padding in pixels. -/
def padding : ℚ := 40

/-- Time-axis maximum of the builder. -/
def tMax : ℚ := 20

/-- Velocity-axis minimum of the builder. -/
def vMin : ℚ := -10

/-- Velocity-axis maximum of the builder. -/
def vMax : ℚ := 10

/-- `tToX`: time to pixel x. -/
def tToX (t : ℚ) : ℚ := padding + (t / tMax) * (width - 2 * padding)

/-- `vToY`: velocity to pixel y. -/
def vToY (v : ℚ) : ℚ :=
  height - padding - ((v - vMin) / (vMax - vMin)) * (height - 2 * padding)

/-- `xToT`: pixel x to time, clamped to `[0, tMax]`. -/
def xToT (x : ℚ) : ℚ :=
  max 0 (min tMax (((x - padding) / (width - 2 * padding)) * tMax))

/-- `yToV`: pixel y to velocity, clamped to `[vMin, vMax]`. -/
def yToV (y : ℚ) : ℚ :=
  max vMin (min vMax (vMin + ((height - padding - y) / (height - 2 * padding)) * (vMax - vMin)))

/-- `Number(z.toFixed(1))`: round to one decimal place (ties toward +∞,
as the toFixed algorithm picks the larger candidate). -/
def round1 (q : ℚ) : ℚ := (round (q * 10) : ℤ) / 10

/-- `points.findIndex(...)`: index of the first point whose pixel distance
to the click is below 10.  `Math.sqrt(d2) < 10` is equivalent to `d2 < 100`
since both sides are nonnegative. -/
def findClickedIndex (points : List GraphPoint) (x y : ℚ) : Option ℕ :=
  points.findIdx? (fun p =>
    decide ((x - tToX p.t) ^ 2 + (y - vToY p.v) ^ 2 < 10 ^ 2))

/-- `handleSvgClick` at pixel `(x, y)`: remove the clicked point when one is
hit and it is removable (more than 2 points, not first, not last); do nothing
when one is hit but not removable; otherwise append the picked `(t, v)`
rounded to one decimal and re-sort by time.  Removing index `i` via
`filter((_, j) => j !== i)` is `eraseIdx i`. -/
def handleSvgClick (points : List GraphPoint) (x y : ℚ) : List GraphPoint :=
  match findClickedIndex points x y with
  | some i =>
    if points.length > 2 ∧ i ≠ 0 ∧ i ≠ points.length - 1 then points.eraseIdx i
    else points
  | none => sortByT (points ++ [⟨round1 (xToT x), round1 (yToV y)⟩])

/-- The spec-level `pick(t, v)`: a click at the exact pixel of `(t, v)`. -/
def pickPoint (points : List GraphPoint) (t v : ℚ) : List GraphPoint :=
  handleSvgClick points (tToX t) (vToY v)

end GraphBuilder

/-! ## Specification-side description of the piecewise integration

The spec states the piecewise position as a sum of trapezoid areas over
segments, rather than as a loop with breaks.  `segArea` and `trapezoidSum`
transcribe that wording; the refinement theorem below compares them with
the loop taken from the source. -/

/-- Spec wording: contribution of the segment `(p, q)` — zero unless the
segment's start time is `< t` and the clamped duration
`dt = min(q.t, t) − p.t` is positive, and the trapezoid area
`((v_i + v_end)/2)·dt` with `v_end = v_i + slope·dt` otherwise. -/
def segArea (t : ℚ) (p q : GraphPoint) : ℚ :=
  if p.t < t then
    let dt := min q.t t - p.t
    if 0 < dt then
      let vEnd := p.v + (q.v - p.v) / (q.t - p.t) * dt
      ((p.v + vEnd) / 2) * dt
    else 0
  else 0

/-- Spec wording: the sum of `segArea` over consecutive segment pairs. -/
def trapezoidSum (t : ℚ) : List GraphPoint → ℚ
  | p :: q :: rest => segArea t p q + trapezoidSum t (q :: rest)
  | _ => 0

/-! ## A division-guarded mirror of the evaluator

`piecewiseLoopChecked` is the same loop, but it returns `none` at the exact
program point where the slope division `(p2.v - p1.v) / (p2.t - p1.t)` is
evaluated in the source whenever the divisor is zero.  Proving it always
returns `some` of the unguarded result shows the `dt ≤ 0` guard shields the
division. -/

/-- The integration loop with an explicit division-by-zero check placed at
the slope computation. -/
def piecewiseLoopChecked (t x v : ℚ) : List GraphPoint → Option BodyState
  | p1 :: p2 :: rest =>
    if p1.t ≥ t then some ⟨x, v⟩
    else
      let segmentEnd := min p2.t t
      let dt := segmentEnd - p1.t
      if dt ≤ 0 then piecewiseLoopChecked t x v (p2 :: rest)
      else
        if p2.t - p1.t = 0 then none
        else
          let slope := (p2.v - p1.v) / (p2.t - p1.t)
          let vEnd := p1.v + slope * dt
          let dx := ((p1.v + vEnd) / 2) * dt
          if p2.t ≥ t then some ⟨x + dx, vEnd⟩
          else piecewiseLoopChecked t (x + dx) vEnd (p2 :: rest)
  | _ => some ⟨x, v⟩

/-- `calculateStateAtTime` with the division-guarded loop. -/
def calculateStateAtTimeChecked (body : BodyParams) (t : ℚ) : Option BodyState :=
  match body.isCustomGraph, body.graphPoints with
  | true, some pts =>
    if pts.length ≥ 2 then
      let sortedPoints := sortByT pts
      if t ≤ 0 then some ⟨body.x0, (sortedPoints.headD ⟨0, 0⟩).v⟩
      else piecewiseLoopChecked t body.x0 0 sortedPoints
    else some (constAccelState body t)
  | _, _ => some (constAccelState body t)

/-! ## Helper lemmas -/

theorem sortByT_sorted (l : List GraphPoint) : List.Sorted ptLE (sortByT l) :=
  List.sorted_insertionSort ptLE l

theorem trapezoidSum_eq_zero (t : ℚ) :
    ∀ l : List GraphPoint, (∀ p ∈ l, t ≤ p.t) → trapezoidSum t l = 0
  | [] , _ => rfl
  | [_], _ => rfl
  | p :: q :: rest, h => by
    have hp : t ≤ p.t := h p (List.mem_cons_self p _)
    have hrest : ∀ r ∈ q :: rest, t ≤ r.t := fun r hr => h r (List.mem_cons_of_mem _ hr)
    have hseg : segArea t p q = 0 := by simp [segArea, not_lt.2 hp]
    simp [trapezoidSum, hseg, trapezoidSum_eq_zero t (q :: rest) hrest]

theorem piecewiseLoop_x_eq (t : ℚ) :
    ∀ l : List GraphPoint, List.Sorted ptLE l →
      ∀ x v : ℚ, (piecewiseLoop t x v l).x = x + trapezoidSum t l
  | [], _, x, v => by simp [piecewiseLoop, trapezoidSum]
  | [_], _, x, v => by simp [piecewiseLoop, trapezoidSum]
  | p :: q :: rest, hs, x, v => by
    have hpq : ∀ r ∈ q :: rest, ptLE p r := (List.sorted_cons.1 hs).1
    have hs' : List.Sorted ptLE (q :: rest) := (List.sorted_cons.1 hs).2
    by_cases h1 : p.t ≥ t
    · have hall : ∀ r ∈ q :: rest, t ≤ r.t := fun r hr => le_trans h1 (hpq r hr)
      have hseg : segArea t p q = 0 := by simp [segArea, not_lt.2 h1]
      simp [piecewiseLoop, h1, trapezoidSum, hseg, trapezoidSum_eq_zero t _ hall]
    · by_cases h2 : min q.t t - p.t ≤ 0
      · have hseg : segArea t p q = 0 := by
          simp only [segArea, if_pos (lt_of_not_ge h1)]
          rw [if_neg (not_lt.2 h2)]
        rw [trapezoidSum, hseg]
        simp only [piecewiseLoop, if_neg h1, if_pos h2]
        rw [piecewiseLoop_x_eq t (q :: rest) hs' x v]
        ring
      · have hseg : segArea t p q =
            ((p.v + (p.v + (q.v - p.v) / (q.t - p.t) * (min q.t t - p.t))) / 2) *
              (min q.t t - p.t) := by
          simp only [segArea, if_pos (lt_of_not_ge h1)]
          rw [if_pos (lt_of_not_ge h2)]
        by_cases h3 : q.t ≥ t
        · have hall : ∀ r ∈ q :: rest, t ≤ r.t := by
            intro r hr
            rcases List.mem_cons.1 hr with h | h
            · subst h; exact h3
            · exact le_trans h3 (List.rel_of_sorted_cons hs' r h)
          rw [trapezoidSum, hseg, trapezoidSum_eq_zero t _ hall]
          simp only [piecewiseLoop, if_neg h1, if_neg h2, if_pos h3]
          ring
        · rw [trapezoidSum, hseg]
          simp only [piecewiseLoop, if_neg h1, if_neg h2, if_neg h3]
          rw [piecewiseLoop_x_eq t (q :: rest) hs']
          ring

theorem piecewiseLoopChecked_eq (t : ℚ) :
    ∀ (l : List GraphPoint) (x v : ℚ),
      piecewiseLoopChecked t x v l = some (piecewiseLoop t x v l)
  | [], _, _ => rfl
  | [_], _, _ => rfl
  | p :: q :: rest, x, v => by
    by_cases h1 : p.t ≥ t
    · simp [piecewiseLoopChecked, piecewiseLoop, h1]
    · by_cases h2 : min q.t t - p.t ≤ 0
      · simp only [piecewiseLoopChecked, piecewiseLoop, if_neg h1, if_pos h2]
        exact piecewiseLoopChecked_eq t (q :: rest) x v
      · have hne : ¬ (q.t - p.t = 0) := by
          have hle : min q.t t - p.t ≤ q.t - p.t :=
            sub_le_sub_right (min_le_left q.t t) p.t
          exact fun h0 => h2 (le_of_le_of_eq hle h0)
        by_cases h3 : q.t ≥ t
        · simp only [piecewiseLoopChecked, piecewiseLoop, if_neg h1, if_neg h2,
            if_neg hne, if_pos h3]
        · simp only [piecewiseLoopChecked, piecewiseLoop, if_neg h1, if_neg h2,
            if_neg hne, if_neg h3]
          exact piecewiseLoopChecked_eq t (q :: rest) _ _

/-! ## Example inputs used by the claims -/

/-- The velocity graph `(0,0),(10,10),(20,0)` of the spec's worked example. -/
def exGraphPts : List GraphPoint := [⟨0, 0⟩, ⟨10, 10⟩, ⟨20, 0⟩]

/-- Piecewise-mode body with the example graph and `x0 = 0`. -/
def exGraphBody : BodyParams := ⟨0, 0, 0, true, some exGraphPts⟩

/-- Crossing scenario body A: `{x0: 0, v0: 5, a: 0}`. -/
def crossBodyA : BodyParams := ⟨0, 5, 0, false, none⟩

/-- Crossing scenario body B: `{x0: 50, v0: -2, a: 0}`. -/
def crossBodyB : BodyParams := ⟨50, -2, 0, false, none⟩

/-- No-crossing scenario body A: `{x0: 0, v0: 5, a: 0}`. -/
def parallelBodyA : BodyParams := ⟨0, 5, 0, false, none⟩

/-- No-crossing scenario body B: `{x0: 100, v0: 10, a: 0}`. -/
def parallelBodyB : BodyParams := ⟨100, 10, 0, false, none⟩

/-! ## Claims -/

/-- C1: in piecewise-velocity mode (graph present with at least 2 points),
`evaluate(body, t)` returns `(x0, v_first)` for `t ≤ 0`, and for `t > 0`
the returned position is `x0` plus the trapezoid-area sum over the sorted
segments (start time `< t`, endpoint clamped to `min(t_next, t)`, `dt ≤ 0`
segments skipped, accumulation stopping once an endpoint reaches `t`);
in particular for points `(0,0),(10,10),(20,0)` and `x0 = 0` the position
at `t = 10` is 50 and at `t = 20` is 100. -/
theorem c1_piecewise_evaluation :
    (∀ (body : BodyParams) (pts : List GraphPoint) (t : ℚ),
        body.isCustomGraph = true → body.graphPoints = some pts →
        2 ≤ pts.length →
        (t ≤ 0 → calculateStateAtTime body t =
            ⟨body.x0, ((sortByT pts).headD ⟨0, 0⟩).v⟩) ∧
        (0 < t → (calculateStateAtTime body t).x =
            body.x0 + trapezoidSum t (sortByT pts))) ∧
    (calculateStateAtTime exGraphBody 10).x = 50 ∧
    (calculateStateAtTime exGraphBody 20).x = 100 := by
  refine ⟨?_, by decide, by decide⟩
  intro body pts t hflag hpts hlen
  constructor
  · intro ht
    simp only [calculateStateAtTime, hflag, hpts,
      if_pos (show pts.length ≥ 2 from hlen), if_pos ht]
  · intro ht
    simp only [calculateStateAtTime, hflag, hpts,
      if_pos (show pts.length ≥ 2 from hlen), if_neg (not_le.2 ht)]
    exact piecewiseLoop_x_eq t (sortByT pts) (sortByT_sorted pts) body.x0 0

/-- Witness for C1 at the example body, at `t = -1` and `t = 5`. -/
theorem c1_piecewise_evaluation_witness :
    calculateStateAtTime exGraphBody (-1) =
      ⟨exGraphBody.x0, ((sortByT exGraphPts).headD ⟨0, 0⟩).v⟩ ∧
    (calculateStateAtTime exGraphBody 5).x =
      exGraphBody.x0 + trapezoidSum 5 (sortByT exGraphPts) :=
  ⟨(c1_piecewise_evaluation.1 exGraphBody exGraphPts (-1) rfl rfl (by decide)).1
      (by norm_num),
   (c1_piecewise_evaluation.1 exGraphBody exGraphPts 5 rfl rfl (by decide)).2
      (by norm_num)⟩

/-- C2: in constant-acceleration mode, for every `t`,
`evaluate(body, t)` returns velocity `v0 + a·t` and position
`x0 + v0·t + 0.5·a·t²`. -/
theorem c2_constant_acceleration (body : BodyParams) (t : ℚ)
    (h : body.isCustomGraph = false) :
    (calculateStateAtTime body t).v = body.v0 + body.a * t ∧
    (calculateStateAtTime body t).x = body.x0 + body.v0 * t + 1/2 * body.a * t * t := by
  cases hg : body.graphPoints <;>
    simp [calculateStateAtTime, h, hg, constAccelState]

/-- Witness for C2 at `body = {x0: 2, v0: 3, a: 4}`, `t = 5`. -/
theorem c2_constant_acceleration_witness :
    (calculateStateAtTime ⟨2, 3, 4, false, none⟩ 5).v = 3 + 4 * 5 ∧
    (calculateStateAtTime ⟨2, 3, 4, false, none⟩ 5).x = 2 + 3 * 5 + 1/2 * 4 * 5 * 5 :=
  c2_constant_acceleration ⟨2, 3, 4, false, none⟩ 5 rfl

/-- C3: the crossing detector is a first-match scan over consecutive sample
pairs: it returns exactly the earliest sample time `t > 0` whose sign-flip
test against the previous sample fires, paired with body A's position there,
and `none` when no such step exists; later flips are never reported. -/
theorem c3_first_crossing :
    (∀ (bodyA bodyB : BodyParams) (ts : List ℚ),
        crossingScan bodyA bodyB ts =
          (ts.find? (fun t =>
              decide (0 < t) && decide (crossingCond bodyA bodyB t))).map
            (fun t => (t, (calculateStateAtTime bodyA t).x))) ∧
    (∀ bodyA bodyB : BodyParams,
        detectCrossing bodyA bodyB =
          (sampleTimes.find? (fun t =>
              decide (0 < t) && decide (crossingCond bodyA bodyB t))).map
            (fun t => (t, (calculateStateAtTime bodyA t).x))) := by
  have main : ∀ (A B : BodyParams) (ts : List ℚ),
      crossingScan A B ts =
        (ts.find? (fun t => decide (0 < t) && decide (crossingCond A B t))).map
          (fun t => (t, (calculateStateAtTime A t).x)) := by
    intro A B ts
    induction ts with
    | nil => rfl
    | cons t ts ih =>
      by_cases h : 0 < t ∧ crossingCond A B t
      · have hb : (decide (0 < t) && decide (crossingCond A B t)) = true := by
          simp [h.1, h.2]
        simp only [crossingScan, if_pos h]
        rw [List.find?_cons_of_pos]
        · rfl
        · exact hb
      · have hb : (decide (0 < t) && decide (crossingCond A B t)) = false := by
          rcases not_and_or.1 h with h1 | h1 <;> simp [h1]
        simp only [crossingScan, if_neg h]
        rw [ih, List.find?_cons_of_neg]
        simp [hb]
  exact ⟨main, fun A B => main A B sampleTimes⟩

set_option maxRecDepth 40000 in
/-- C4: for bodies `{x0:0, v0:5, a:0}` and `{x0:50, v0:-2, a:0}` sampled at
step 0.1 over the default horizon, the detector reports the crossing at grid
time 7.2 with position 36, and 7.2 is within one step of the analytic
crossing time 50/7. -/
theorem c4_crossing_within_one_step :
    detectCrossing crossBodyA crossBodyB = some (36/5, 36) ∧
    |36/5 - 50/7| ≤ TIME_STEP := by
  constructor
  · decide
  · decide

/-- C5 counterexample: seeking while playing does not leave the play/pause
state unchanged — the slider handler always pauses. -/
theorem c5_seek_counterexample :
    ¬ ((seekTo ⟨true, 3⟩ 5).isPlaying = (⟨true, 3⟩ : ClockState).isPlaying) := by
  decide

/-- C5 amended: `seek(t)` sets the cursor to `clamp(t, 0, MAX_TIME)` (the
identity on in-range `t`, clamping rather than failing outside), and always
sets the clock to Paused regardless of the prior play/pause state. -/
theorem c5_seek_clamps_and_pauses (s : ClockState) (t : ℚ) :
    (seekTo s t).currentTime = max 0 (min MAX_TIME t) ∧
    (seekTo s t).isPlaying = false ∧
    (0 ≤ t → t ≤ MAX_TIME → (seekTo s t).currentTime = t) := by
  refine ⟨rfl, rfl, fun h1 h2 => ?_⟩
  show max 0 (min MAX_TIME t) = t
  rw [min_eq_right h2, max_eq_right h1]

/-- Witness for C5's amended statement at the playing state, `t = 5`. -/
theorem c5_seek_clamps_and_pauses_witness :
    (0 : ℚ) ≤ 5 ∧ (5 : ℚ) ≤ MAX_TIME ∧ (seekTo ⟨true, 3⟩ 5).currentTime = 5 :=
  ⟨by norm_num, by norm_num [MAX_TIME],
   (c5_seek_clamps_and_pauses ⟨true, 3⟩ 5).2.2 (by norm_num)
     (by norm_num [MAX_TIME])⟩

/-- C6 counterexample: on `[(0,0),(20,0)]`, a pick exactly at the existing
first point `(0,0)` leaves the set unchanged (2 points); the claim instead
demands an insertion, which would give 3 points. -/
theorem c6_pick_counterexample :
    GraphBuilder.pickPoint [⟨0, 0⟩, ⟨20, 0⟩] 0 0 = [⟨0, 0⟩, ⟨20, 0⟩] ∧
    (GraphBuilder.pickPoint [⟨0, 0⟩, ⟨20, 0⟩] 0 0).length ≠ 3 := by
  constructor <;> decide

/-- C6 amended: a pick within tolerance of an existing point that is neither
first nor last, when more than 2 points are present, removes that point;
a pick within tolerance of a non-removable point (first, last, or when only
2 points remain) leaves the set unchanged — no insertion happens; a pick not
within tolerance of any point inserts the picked coordinate and re-sorts
ascending by time; the worked example behaves as the claim states. -/
theorem c6_pick_behaviour :
    (∀ (pts : List GraphPoint) (x y : ℚ) (i : ℕ),
        GraphBuilder.findClickedIndex pts x y = some i →
        pts.length > 2 ∧ i ≠ 0 ∧ i ≠ pts.length - 1 →
        GraphBuilder.handleSvgClick pts x y = pts.eraseIdx i) ∧
    (∀ (pts : List GraphPoint) (x y : ℚ) (i : ℕ),
        GraphBuilder.findClickedIndex pts x y = some i →
        ¬ (pts.length > 2 ∧ i ≠ 0 ∧ i ≠ pts.length - 1) →
        GraphBuilder.handleSvgClick pts x y = pts) ∧
    (∀ (pts : List GraphPoint) (x y : ℚ),
        GraphBuilder.findClickedIndex pts x y = none →
        GraphBuilder.handleSvgClick pts x y =
          sortByT (pts ++ [⟨GraphBuilder.round1 (GraphBuilder.xToT x),
                            GraphBuilder.round1 (GraphBuilder.yToV y)⟩]) ∧
        List.Sorted ptLE (GraphBuilder.handleSvgClick pts x y)) ∧
    GraphBuilder.pickPoint [⟨0, 0⟩, ⟨20, 0⟩] 5 3 = [⟨0, 0⟩, ⟨5, 3⟩, ⟨20, 0⟩] ∧
    GraphBuilder.pickPoint [⟨0, 0⟩, ⟨5, 3⟩, ⟨20, 0⟩] 5 3 = [⟨0, 0⟩, ⟨20, 0⟩] := by
  refine ⟨?_, ?_, ?_, by decide, by decide⟩
  · intro pts x y i hf hc
    simp only [GraphBuilder.handleSvgClick, hf, if_pos hc]
  · intro pts x y i hf hc
    simp only [GraphBuilder.handleSvgClick, hf, if_neg hc]
  · intro pts x y hf
    constructor
    · simp only [GraphBuilder.handleSvgClick, hf]
    · simp only [GraphBuilder.handleSvgClick, hf]
      exact sortByT_sorted _

/-- Witness for C6's amended statement: the removal branch at the worked
example's second pick. -/
theorem c6_pick_behaviour_witness :
    GraphBuilder.findClickedIndex [⟨0, 0⟩, ⟨5, 3⟩, ⟨20, 0⟩]
      (GraphBuilder.tToX 5) (GraphBuilder.vToY 3) = some 1 ∧
    GraphBuilder.handleSvgClick [⟨0, 0⟩, ⟨5, 3⟩, ⟨20, 0⟩]
      (GraphBuilder.tToX 5) (GraphBuilder.vToY 3) =
      ([⟨0, 0⟩, ⟨5, 3⟩, ⟨20, 0⟩] : List GraphPoint).eraseIdx 1 :=
  ⟨by decide,
   c6_pick_behaviour.1 [⟨0, 0⟩, ⟨5, 3⟩, ⟨20, 0⟩]
     (GraphBuilder.tToX 5) (GraphBuilder.vToY 3) 1 (by decide) (by decide)⟩

/-- C7 (code bug): the claimed per-tick advancement fails on the code.
Pressing play at the initial state arms a chain whose `animate` closure
captured cursor 0; the first tick advances the cursor to 0.05, but the
closure reschedules itself, so the second and every later tick recompute
`nextTime` from the same captured 0: the cursor stays at 0.05 with the
clock still Playing — repeated ticks do not strictly increase
`currentTime()` and the `MAX_TIME` clamp-and-pause is never reached in this
run, contrary to the claim and to the spec's stated intent. -/
theorem c7_stale_closure_freeze :
    tickAnim (togglePlayAnim initialAnim) = ⟨true, 1/20, some 0⟩ ∧
    tickAnim (tickAnim (togglePlayAnim initialAnim)) =
      tickAnim (togglePlayAnim initialAnim) ∧
    (∀ n : ℕ, tickAnim^[n] (tickAnim (togglePlayAnim initialAnim)) =
      tickAnim (togglePlayAnim initialAnim)) ∧
    (tickAnim (tickAnim (togglePlayAnim initialAnim))).isPlaying = true := by
  refine ⟨by decide, by decide, ?_, by decide⟩
  intro n
  exact Function.iterate_fixed (by decide) n

/-- C8: piecewise evaluation never divides by zero: the division-guarded
mirror of the evaluator, which returns `none` exactly when the slope
division `(p2.v - p1.v) / (p2.t - p1.t)` would be evaluated with a zero
divisor, always returns `some` of the unguarded result — degenerate
segments are short-circuited by the `dt ≤ 0` guard before the division. -/
theorem c8_no_division_by_zero :
    ∀ (body : BodyParams) (t : ℚ),
      calculateStateAtTimeChecked body t = some (calculateStateAtTime body t) := by
  intro body t
  obtain ⟨x0, v0, a, flag, gp⟩ := body
  cases flag with
  | false => cases gp <;> rfl
  | true =>
    cases gp with
    | none => rfl
    | some pts =>
      simp only [calculateStateAtTime, calculateStateAtTimeChecked]
      by_cases hlen : pts.length ≥ 2
      · rw [if_pos hlen, if_pos hlen]
        by_cases ht : t ≤ 0
        · rw [if_pos ht, if_pos ht]
        · rw [if_neg ht, if_neg ht]
          exact piecewiseLoopChecked_eq t (sortByT pts) x0 0
      · rw [if_neg hlen, if_neg hlen]

set_option maxRecDepth 40000 in
/-- C9: for the parallel bodies `{x0:0, v0:5, a:0}` and `{x0:100, v0:10, a:0}`
the detector scans the full horizon and returns `none` — the absence of a
crossing is the ordinary `Option` value `none`, not an error. -/
theorem c9_parallel_no_crossing :
    detectCrossing parallelBodyA parallelBodyB = none := by decide

/-- C10: a body with the piecewise flag set but the velocity graph absent or
shorter than 2 points evaluates through the constant-acceleration fallback
for every `t`: the formulas hold, and the result coincides with the same
body in constant-acceleration mode. -/
theorem c10_degenerate_graph_fallback (body : BodyParams) (t : ℚ)
    (hflag : body.isCustomGraph = true)
    (h : body.graphPoints = none ∨
         ∃ pts, body.graphPoints = some pts ∧ pts.length < 2) :
    calculateStateAtTime body t =
      ⟨body.x0 + body.v0 * t + 1/2 * body.a * t * t, body.v0 + body.a * t⟩ ∧
    calculateStateAtTime body t =
      calculateStateAtTime ⟨body.x0, body.v0, body.a, false, body.graphPoints⟩ t := by
  have hmain : calculateStateAtTime body t = constAccelState body t := by
    rcases h with hnone | ⟨pts, hsome, hlen⟩
    · simp [calculateStateAtTime, hflag, hnone]
    · simp [calculateStateAtTime, hflag, hsome, not_le.2 hlen]
  refine ⟨hmain, hmain.trans ?_⟩
  cases hgp : body.graphPoints <;> rfl

/-- Witness for C10 at a flagged body with a single-point graph, `t = 4`. -/
theorem c10_degenerate_graph_fallback_witness :
    calculateStateAtTime ⟨7, -3, 2, true, some [⟨0, 0⟩]⟩ 4 =
      ⟨7 + -3 * 4 + 1/2 * 2 * 4 * 4, -3 + 2 * 4⟩ ∧
    calculateStateAtTime ⟨7, -3, 2, true, some [⟨0, 0⟩]⟩ 4 =
      calculateStateAtTime ⟨7, -3, 2, false, some [⟨0, 0⟩]⟩ 4 :=
  c10_degenerate_graph_fallback ⟨7, -3, 2, true, some [⟨0, 0⟩]⟩ 4 rfl
    (Or.inr ⟨[⟨0, 0⟩], rfl, by decide⟩)
